import Mathlib

/-!
Verification of the unraid-mcp translation layer.

This file gives a shallow embedding of the two server files
`unraid-mcp-server-http.py` (namespace `Http`) and
`unraid-mcp-server-simple.py` (namespace `Simple`): the shared GraphQL
request executor `make_graphql_request`, the four operation handlers
(`get_system_info`, `get_array_status`, `list_docker_containers`,
`health_check`) and the tool dispatcher `call_tool`, together with
theorems checking the specification document against these definitions.

JSON values are modelled exactly (integers for the numbers that occur);
the network is modelled as an `UpstreamOutcome` describing what the
single upstream POST produced.  Python exceptions are modelled as values
of `PyError`; a function that can raise returns `Except`.
-/

/-- A JSON value as decoded by `response.json()`.  Numbers are integers:
every numeric field the two servers touch (cores, threads, kilobytes,
counts) is integral, and no arithmetic producing fractions is applied to
raw JSON numbers. -/
inductive Json where
  | null
  | bool (b : Bool)
  | num (n : Int)
  | str (s : String)
  | arr (elems : List Json)
  | obj (members : List (String × Json))

/-- Key lookup in an association list of object members; first binding
wins, as in a Python dict (whose keys are unique). -/
def lookupField : List (String × Json) → String → Option Json
  | [], _ => none
  | (k, v) :: ms, key => if k = key then some v else lookupField ms key

/-- Python `d.get(key)` returning `none` for an absent key.  Looking up a
key on a non-object raises `AttributeError` in Python; the servers only
ever do this on values that the upstream schema makes objects, and the
model returns `none` there. -/
def Json.lookup? : Json → String → Option Json
  | .obj ms, key => lookupField ms key
  | _, _ => none

/-- Python `d.get(key, default)`. -/
def Json.getd (j : Json) (key : String) (dflt : Json) : Json :=
  (j.lookup? key).getD dflt

/-- Python truthiness of a JSON value: `None`, `False`, `0`, `""`, `[]`
and the empty object are falsy, everything else is truthy. -/
def Json.truthy : Json → Bool
  | .null => false
  | .bool b => b
  | .num n => n != 0
  | .str s => !(s == "")
  | .arr es => !es.isEmpty
  | .obj ms => !ms.isEmpty

/-- Python `len()` on the JSON values it is defined for (sequences,
strings, objects).  `len` of a number or `None` raises `TypeError` in
Python; the servers only apply it to values the schema makes lists. -/
def Json.pyLen : Json → Nat
  | .arr es => es.length
  | .str s => s.length
  | .obj ms => ms.length
  | _ => 0

/-- A single quote character, used by the Python `repr` of strings. -/
def pyQuote : String := String.singleton (Char.ofNat 39)

mutual
/-- Python `repr` of a JSON value (which is also `str` for every type
here except `str` itself): `None`, `True`, `False`, decimal integers,
single-quoted strings, bracketed lists and braced dicts. -/
def pyRepr : Json → String
  | .null => "None"
  | .bool true => "True"
  | .bool false => "False"
  | .num n => toString n
  | .str s => pyQuote ++ s ++ pyQuote
  | .arr es => "[" ++ String.intercalate ", " (pyReprList es) ++ "]"
  | .obj ms => "\x7b" ++ String.intercalate ", " (pyReprFields ms) ++ "\x7d"
/-- The rendered elements of a list, for `pyRepr`. -/
def pyReprList : List Json → List String
  | [] => []
  | e :: es => pyRepr e :: pyReprList es
/-- The rendered `key: value` members of a dict, for `pyRepr`. -/
def pyReprFields : List (String × Json) → List String
  | [] => []
  | (k, v) :: ms => (pyQuote ++ k ++ pyQuote ++ ": " ++ pyRepr v) :: pyReprFields ms
end

/-- Python `str` of a JSON value: the string itself for strings,
`repr` for every other type appearing here. -/
def pyStr : Json → String
  | .str s => s
  | j => pyRepr j

/-- A Python exception as the servers raise and print them, by kind
(the error taxonomy of the spec) together with its `str()` contents. -/
inductive PyError where
  /-- An `httpx` network or timeout failure; carries its message. -/
  | transport (msg : String)
  /-- The `httpx.HTTPStatusError` from `response.raise_for_status()`;
  carries the non-success status code and the message httpx renders. -/
  | httpStatus (status : Nat) (msg : String)
  /-- A `json.JSONDecodeError` from `response.json()`. -/
  | jsonDecode (msg : String)
  /-- The `Exception("GraphQL API error: ...")` raised on a non-empty
  `errors` array; carries the joined message details. -/
  | graphqlError (details : String)
  /-- A plain `Exception(msg)`. -/
  | exc (msg : String)
  /-- A FastAPI/Starlette `HTTPException(status_code, detail)`. -/
  | httpExc (status_code : Nat) (detail : String)

/-- Python `str()` of an exception: the message it was built with; for
`HTTPException`, Starlette renders `"{status_code}: {detail}"`. -/
def PyError.str : PyError → String
  | .transport m => m
  | .httpStatus _ m => m
  | .jsonDecode m => m
  | .graphqlError d => "GraphQL API error: " ++ d
  | .exc m => m
  | .httpExc s d => toString s ++ ": " ++ d

/-- What the single upstream POST of one request produced: either a
transport-level failure (connection/timeout), or an HTTP response with a
status code, the status message httpx would put in an
`HTTPStatusError`, and the JSON-decoded body (`Except.error` when the
body is not valid JSON, carrying the decode message). -/
inductive UpstreamOutcome where
  | transportError (msg : String)
  | response (status : Nat) (statusText : String) (body : Except String Json)

/-- One entry of the `errors` array rendered for the joined error
message: `err.get("message", str(err))`.  When the entry has no string
`message`, Python would use `str(err)` (entry not a dict: it raises;
`message` present but not a string: the later join raises); the upstream
GraphQL contract gives every entry a string `message`, and the model
renders the stray cases with `pyStr`. -/
def errMessage (err : Json) : String :=
  match err.lookup? "message" with
  | some (Json.str s) => s
  | some v => pyStr v
  | none => pyStr err

/-- The `"; ".join(...)` over the `errors` array.  A truthy non-list
`errors` value would be iterated elementwise by Python; only the list
case occurs under the upstream contract and the model renders a
non-list argument directly. -/
def joinErrorMessages : Json → String
  | .arr es => String.intercalate "; " (es.map errMessage)
  | e => errMessage e

/-- The decision logic shared verbatim by the two files'
`make_graphql_request` (http lines 62-71, simple lines 48-57):
`response.raise_for_status()` (httpx: success means `200 <= status <
300`), then `response.json()`, then the non-empty-`errors` check raising
`Exception("GraphQL API error: " + joined)`, else
`response_data.get("data", {})`.  A body that decodes to a non-object
would raise on the final `.get` in Python; the upstream contract makes
the body an object and theorems quantify over object bodies. -/
def graphqlRequestCore (o : UpstreamOutcome) : Except PyError Json :=
  match o with
  | .transportError msg => .error (.transport msg)
  | .response status statusText body =>
    if status < 200 ∨ 300 ≤ status then .error (.httpStatus status statusText)
    else
      match body with
      | .error msg => .error (.jsonDecode msg)
      | .ok response_data =>
        match response_data.lookup? "errors" with
        | some errs =>
          if errs.truthy then .error (.graphqlError (joinErrorMessages errs))
          else .ok (response_data.getd "data" (Json.obj []))
        | none => .ok (response_data.getd "data" (Json.obj []))

/-- Round `num / den` to the nearest integer, ties to even: the rounding
of IEEE-754 formatting, hence of a Python `f"{x:.2f}"` whose float `x`
holds the quotient exactly. -/
def roundHalfEven (num den : Nat) : Nat :=
  let q := num / den
  let r := num % den
  if 2 * r < den then q
  else if den < 2 * r then q + 1
  else if q % 2 = 0 then q else q + 1

/-- Render a number of hundredths as a fixed two-decimal string, as
`f"{x:.2f}"` does. -/
def twoDecimals (cents : Nat) : String :=
  toString (cents / 100) ++ "." ++ (if cents % 100 < 10 then "0" else "") ++ toString (cents % 100)

/-- Python `f"{num/den:.2f}"` for natural `num` and a power-of-two `den`:
for `num < 2^53` the float quotient is exact, so the printed value is
the exact quotient rounded to hundredths, ties to even. -/
def formatFloat2 (num den : Nat) : String :=
  twoDecimals (roundHalfEven (num * 100) den)

/-- The inner `format_kb` of `get_array_status` (http lines 229-235).
The argument is the kilobyte figure, `none` standing for Python `None`
(absent key or JSON null); a non-numeric figure would raise in `int()`
and is outside the model. -/
def format_kb : Option Int → String
  | none => "N/A"
  | some k =>
    if 1024 * 1024 * 1024 ≤ k then formatFloat2 k.toNat (1024 * 1024 * 1024) ++ " TB"
    else if 1024 * 1024 ≤ k then formatFloat2 k.toNat (1024 * 1024) ++ " GB"
    else if 1024 ≤ k then formatFloat2 k.toNat 1024 ++ " MB"
    else toString k ++ " KB"

/-- The kilobyte figure `kb_cap.get(key)` as `format_kb` receives it:
`none` for an absent key or JSON null (Python `None`). -/
def kbFigure (j : Json) (key : String) : Option Int :=
  match j.lookup? key with
  | some (Json.num n) => some n
  | _ => none

/-- A FastAPI/Starlette `HTTPException` as finally raised by an HTTP
route handler. -/
structure HTTPException where
  status_code : Nat
  detail : String

/-- The value of a FastAPI health route: the JSON content together with
the response status code (200 for a plain dict return, 503 for the
explicit `JSONResponse(status_code=503, ...)`). -/
structure HealthResponse where
  status_code : Nat
  content : Json

namespace Http

/-- The request executor of `unraid-mcp-server-http.py` lines 48-71:
after the POST (modelled by the `UpstreamOutcome`), `raise_for_status`,
JSON decode, the `errors` check and the `data` extraction. -/
def make_graphql_request (o : UpstreamOutcome) : Except PyError Json :=
  graphqlRequestCore o

/-- The summary dict built by `get_system_info` (http lines 176-188):
keyed entries appear in insertion order, each block only when its raw
field is truthy; `os` and `cpu` are f-string renderings with absent
subfields defaulted to `""` (via `.get(k, "")`) or to `None` (via
`.get(k)`), `hostname`/`uptime`/`unraid_version` are copied verbatim. -/
def system_summary (raw_info : Json) : List (String × Json) :=
  (if (raw_info.getd "os" Json.null).truthy then
    [("os", Json.str (pyStr ((raw_info.getd "os" Json.null).getd "distro" (Json.str "")) ++ " " ++
        pyStr ((raw_info.getd "os" Json.null).getd "release" (Json.str "")) ++ " (" ++
        pyStr ((raw_info.getd "os" Json.null).getd "platform" (Json.str "")) ++ ")")),
     ("hostname", (raw_info.getd "os" Json.null).getd "hostname" Json.null),
     ("uptime", (raw_info.getd "os" Json.null).getd "uptime" Json.null)]
   else []) ++
  (if (raw_info.getd "cpu" Json.null).truthy then
    [("cpu", Json.str (pyStr ((raw_info.getd "cpu" Json.null).getd "manufacturer" (Json.str "")) ++ " " ++
        pyStr ((raw_info.getd "cpu" Json.null).getd "brand" (Json.str "")) ++ " (" ++
        pyStr ((raw_info.getd "cpu" Json.null).getd "cores" Json.null) ++ " cores, " ++
        pyStr ((raw_info.getd "cpu" Json.null).getd "threads" Json.null) ++ " threads)"))]
   else []) ++
  (if (raw_info.getd "versions" Json.null).truthy then
    [("unraid_version", (raw_info.getd "versions" Json.null).getd "unraid" Json.null)]
   else [])

/-- The `/system-info` handler (http lines 152-194).  The inner body may
raise the 404 `HTTPException` when `info` is absent or falsy; the
`except Exception` clause catches every exception (the 404 included,
since `HTTPException` subclasses `Exception`) and raises the final 500
with the wrapped `str(e)`. -/
def get_system_info (o : UpstreamOutcome) : Except HTTPException Json :=
  let attempt : Except PyError Json :=
    match make_graphql_request o with
    | .error e => .error e
    | .ok response_data =>
      let raw_info := response_data.getd "info" (Json.obj [])
      if !raw_info.truthy then
        .error (.httpExc 404 "No system info returned from Unraid API")
      else
        .ok (Json.obj [("summary", Json.obj (system_summary raw_info)), ("details", raw_info)])
  match attempt with
  | .ok r => .ok r
  | .error e => .error ⟨500, "Failed to retrieve system information: " ++ e.str⟩

/-- The summary dict built by `get_array_status` (http lines 220-241):
`state` copied verbatim, the two counts, and the formatted `capacity`
entry exactly when `capacity` and `capacity["kilobytes"]` are truthy. -/
def array_summary (raw_array_info : Json) : List (String × Json) :=
  [("state", raw_array_info.getd "state" Json.null),
   ("num_data_disks", Json.num (raw_array_info.getd "disks" (Json.arr [])).pyLen),
   ("num_parity_disks", Json.num (raw_array_info.getd "parities" (Json.arr [])).pyLen)] ++
  (if (raw_array_info.getd "capacity" Json.null).truthy &&
      ((raw_array_info.getd "capacity" Json.null).getd "kilobytes" Json.null).truthy then
    [("capacity", Json.obj [
      ("total", Json.str (format_kb (kbFigure ((raw_array_info.getd "capacity" Json.null).getd "kilobytes" Json.null) "total"))),
      ("used", Json.str (format_kb (kbFigure ((raw_array_info.getd "capacity" Json.null).getd "kilobytes" Json.null) "used"))),
      ("free", Json.str (format_kb (kbFigure ((raw_array_info.getd "capacity" Json.null).getd "kilobytes" Json.null) "free")))])]
   else [])

/-- The `/array-status` handler (http lines 196-247), with the same
catch-and-rewrap shape as `get_system_info`. -/
def get_array_status (o : UpstreamOutcome) : Except HTTPException Json :=
  let attempt : Except PyError Json :=
    match make_graphql_request o with
    | .error e => .error e
    | .ok response_data =>
      let raw_array_info := response_data.getd "array" (Json.obj [])
      if !raw_array_info.truthy then
        .error (.httpExc 404 "No array information returned from Unraid API")
      else
        .ok (Json.obj [("summary", Json.obj (array_summary raw_array_info)), ("details", raw_array_info)])
  match attempt with
  | .ok r => .ok r
  | .error e => .error ⟨500, "Failed to retrieve array status: " ++ e.str⟩

/-- Python `c.get("state") == name` from the two list comprehensions of
`list_docker_containers`: true exactly when the entry has a `state` key
holding that string. -/
def stateIs (c : Json) (name : String) : Bool :=
  match c.lookup? "state" with
  | some (Json.str t) => t == name
  | _ => false

/-- The elements of the `containers` value as iterated by the two list
comprehensions; the upstream schema makes it a list. -/
def containerItems : Json → List Json
  | .arr es => es
  | _ => []

/-- The `/docker/containers` handler (http lines 249-291): when `docker`
is truthy, counts `running`/`exited` states and returns the summary with
the raw list; when `docker` is absent or falsy, returns the zero-valued
summary with an empty list, not an error. -/
def list_docker_containers (o : UpstreamOutcome) : Except HTTPException Json :=
  let attempt : Except PyError Json :=
    match make_graphql_request o with
    | .error e => .error e
    | .ok response_data =>
      if (response_data.getd "docker" Json.null).truthy then
        let containers := (response_data.getd "docker" Json.null).getd "containers" (Json.arr [])
        let cs := containerItems containers
        .ok (Json.obj [
          ("summary", Json.obj [
            ("total", Json.num containers.pyLen),
            ("running", Json.num (cs.countP (fun c => stateIs c "running"))),
            ("stopped", Json.num (cs.countP (fun c => stateIs c "exited")))]),
          ("containers", containers)])
      else
        .ok (Json.obj [
          ("summary", Json.obj [("total", Json.num 0), ("running", Json.num 0), ("stopped", Json.num 0)]),
          ("containers", Json.arr [])])
  match attempt with
  | .ok r => .ok r
  | .error e => .error ⟨500, "Failed to list Docker containers: " ++ e.str⟩

/-- The `/health` handler (http lines 73-110).  `now` is the
`datetime.utcnow().isoformat()` timestamp, a parameter of the model.
On executor success it returns the healthy record (HTTP 200) echoing
`machineId`/`time` under `unraid_system`; on any exception it returns
the `JSONResponse` with status 503 and the stringified error. -/
def health_check (now : String) (o : UpstreamOutcome) : HealthResponse :=
  match make_graphql_request o with
  | .ok response_data =>
    ⟨200, Json.obj [
      ("status", Json.str "healthy"),
      ("timestamp", Json.str now),
      ("server", Json.str "Unraid MCP Server HTTP"),
      ("version", Json.str "1.0.0"),
      ("api_connection", Json.str "ok"),
      ("unraid_system", Json.obj [
        ("machine_id", (response_data.getd "info" (Json.obj [])).getd "machineId" Json.null),
        ("time", (response_data.getd "info" (Json.obj [])).getd "time" Json.null)])]⟩
  | .error e =>
    ⟨503, Json.obj [
      ("status", Json.str "unhealthy"),
      ("timestamp", Json.str now),
      ("error", Json.str e.str)]⟩

end Http

/-- Four lowercase hexadecimal digits, as in a JSON `\uXXXX` escape. -/
def hex4 (n : Nat) : String :=
  let ds := Nat.toDigits 16 n
  String.mk (List.replicate (4 - ds.length) '0' ++ ds)

/-- The escape of one character under `json.dumps` with its default
`ensure_ascii=True`: the two-character escapes for quote, backslash and
the usual control characters, `\uXXXX` for the other characters outside
`0x20`-`0x7e` (a surrogate pair above `0xffff`), the character itself
otherwise. -/
def jsonEscapeChar (c : Char) : String :=
  if c = Char.ofNat 34 then "\\\""
  else if c = '\\' then "\\\\"
  else if c = Char.ofNat 8 then "\\b"
  else if c = Char.ofNat 9 then "\\t"
  else if c = Char.ofNat 10 then "\\n"
  else if c = Char.ofNat 12 then "\\f"
  else if c = Char.ofNat 13 then "\\r"
  else if c.toNat < 32 ∨ 126 < c.toNat then
    if c.toNat < 65536 then "\\u" ++ hex4 c.toNat
    else
      "\\u" ++ hex4 (55296 + (c.toNat - 65536) / 1024) ++
      "\\u" ++ hex4 (56320 + (c.toNat - 65536) % 1024)
  else String.singleton c

/-- A JSON string literal as `json.dumps` renders it. -/
def jsonQuote (s : String) : String :=
  "\"" ++ String.join (s.data.map jsonEscapeChar) ++ "\""

/-- The indentation in front of a value nested `lvl` levels deep under
`json.dumps(..., indent=2)`. -/
def indentStr (lvl : Nat) : String :=
  String.mk (List.replicate (2 * lvl) ' ')

mutual
/-- Python `json.dumps(j, indent=2)` of the value at nesting level
`lvl`: scalars inline; a non-empty array or object opens its bracket,
puts each item on its own line one level deeper joined by `",\n"`, and
closes the bracket at the current level.  Empty containers collapse to
`[]` and to the empty braces. -/
def json_dumps (j : Json) (lvl : Nat) : String :=
  match j with
  | .null => "null"
  | .bool true => "true"
  | .bool false => "false"
  | .num n => toString n
  | .str s => jsonQuote s
  | .arr [] => "[]"
  | .arr (e :: es) =>
    "[\n" ++ String.intercalate ",\n" (dumpsItems (e :: es) (lvl + 1)) ++
    "\n" ++ indentStr lvl ++ "]"
  | .obj [] => "\x7b\x7d"
  | .obj (m :: ms) =>
    "\x7b\n" ++ String.intercalate ",\n" (dumpsMembers (m :: ms) (lvl + 1)) ++
    "\n" ++ indentStr lvl ++ "\x7d"
/-- The indented renderings of the elements of an array, for
`json_dumps`. -/
def dumpsItems : List Json → Nat → List String
  | [], _ => []
  | e :: es, lvl => (indentStr lvl ++ json_dumps e lvl) :: dumpsItems es lvl
/-- The indented `"key": value` renderings of the members of an object,
for `json_dumps`. -/
def dumpsMembers : List (String × Json) → Nat → List String
  | [], _ => []
  | (k, v) :: ms, lvl => (indentStr lvl ++ jsonQuote k ++ ": " ++ json_dumps v lvl) :: dumpsMembers ms lvl
end

/-- An MCP `TextContent(type="text", text=...)` payload. -/
structure TextContent where
  type : String
  text : String

namespace Simple

/-- The request executor of `unraid-mcp-server-simple.py` lines 38-57;
its decision logic is duplicated verbatim from the HTTP file (only the
transport settings differ, which live behind the `UpstreamOutcome`). -/
def make_graphql_request (o : UpstreamOutcome) : Except PyError Json :=
  graphqlRequestCore o

/-- The summary dict built by the tool-protocol `get_system_info`
(simple lines 129-138): as in the HTTP file but with no `versions`
block. -/
def system_summary (raw_info : Json) : List (String × Json) :=
  (if (raw_info.getd "os" Json.null).truthy then
    [("os", Json.str (pyStr ((raw_info.getd "os" Json.null).getd "distro" (Json.str "")) ++ " " ++
        pyStr ((raw_info.getd "os" Json.null).getd "release" (Json.str "")) ++ " (" ++
        pyStr ((raw_info.getd "os" Json.null).getd "platform" (Json.str "")) ++ ")")),
     ("hostname", (raw_info.getd "os" Json.null).getd "hostname" Json.null),
     ("uptime", (raw_info.getd "os" Json.null).getd "uptime" Json.null)]
   else []) ++
  (if (raw_info.getd "cpu" Json.null).truthy then
    [("cpu", Json.str (pyStr ((raw_info.getd "cpu" Json.null).getd "manufacturer" (Json.str "")) ++ " " ++
        pyStr ((raw_info.getd "cpu" Json.null).getd "brand" (Json.str "")) ++ " (" ++
        pyStr ((raw_info.getd "cpu" Json.null).getd "cores" Json.null) ++ " cores, " ++
        pyStr ((raw_info.getd "cpu" Json.null).getd "threads" Json.null) ++ " threads)"))]
   else [])

/-- The tool-protocol `get_system_info` (simple lines 108-144): raises a
plain `Exception` on missing `info`, and its `except` clause rewraps
every failure message. -/
def get_system_info (o : UpstreamOutcome) : Except String Json :=
  let attempt : Except PyError Json :=
    match make_graphql_request o with
    | .error e => .error e
    | .ok response_data =>
      let raw_info := response_data.getd "info" (Json.obj [])
      if !raw_info.truthy then
        .error (.exc "No system info returned from Unraid API")
      else
        .ok (Json.obj [("summary", Json.obj (system_summary raw_info)), ("details", raw_info)])
  match attempt with
  | .ok r => .ok r
  | .error e => .error ("Failed to retrieve system information: " ++ e.str)

/-- The summary dict built by the tool-protocol `get_array_status`
(simple lines 168-172): `state` and the two counts only, no capacity
entry. -/
def array_summary (raw_array_info : Json) : List (String × Json) :=
  [("state", raw_array_info.getd "state" Json.null),
   ("num_data_disks", Json.num (raw_array_info.getd "disks" (Json.arr [])).pyLen),
   ("num_parity_disks", Json.num (raw_array_info.getd "parities" (Json.arr [])).pyLen)]

/-- The tool-protocol `get_array_status` (simple lines 146-178). -/
def get_array_status (o : UpstreamOutcome) : Except String Json :=
  let attempt : Except PyError Json :=
    match make_graphql_request o with
    | .error e => .error e
    | .ok response_data =>
      let raw_array_info := response_data.getd "array" (Json.obj [])
      if !raw_array_info.truthy then
        .error (.exc "No array information returned from Unraid API")
      else
        .ok (Json.obj [("summary", Json.obj (array_summary raw_array_info)), ("details", raw_array_info)])
  match attempt with
  | .ok r => .ok r
  | .error e => .error ("Failed to retrieve array status: " ++ e.str)

/-- The tool-protocol `list_docker_containers` (simple lines 180-204):
returns the raw container list alone, or the empty list when `docker`
is absent or falsy. -/
def list_docker_containers (o : UpstreamOutcome) : Except String Json :=
  let attempt : Except PyError Json :=
    match make_graphql_request o with
    | .error e => .error e
    | .ok response_data =>
      if (response_data.getd "docker" Json.null).truthy then
        .ok ((response_data.getd "docker" Json.null).getd "containers" (Json.arr []))
      else
        .ok (Json.arr [])
  match attempt with
  | .ok r => .ok r
  | .error e => .error ("Failed to list Docker containers: " ++ e.str)

/-- The tool-protocol `health_check` (simple lines 206-233): never
raises; echoes the whole `info` object under `unraid_system` on
success, or the stringified error in an unhealthy record. -/
def health_check (o : UpstreamOutcome) : Json :=
  match make_graphql_request o with
  | .ok response_data =>
    Json.obj [
      ("status", Json.str "healthy"),
      ("server", Json.str "Unraid MCP Server"),
      ("api_connection", Json.str "ok"),
      ("unraid_system", response_data.getd "info" (Json.obj []))]
  | .error e =>
    Json.obj [
      ("status", Json.str "unhealthy"),
      ("error", Json.str e.str)]

/-- The tool dispatcher `call_tool` (simple lines 81-106): dispatch by
name, serialize the result with `json.dumps(result, indent=2)` into one
text content; an unknown name raises inside the `try`, and the `except`
clause turns every failure into the `"Error: ..."` text content, so the
function always returns a content payload. -/
def call_tool (name : String) (arguments : Json) (o : UpstreamOutcome) : List TextContent :=
  let attempt : Except String (List TextContent) :=
    if name = "get_system_info" then
      match get_system_info o with
      | .ok result => .ok [⟨"text", json_dumps result 0⟩]
      | .error e => .error e
    else if name = "get_array_status" then
      match get_array_status o with
      | .ok result => .ok [⟨"text", json_dumps result 0⟩]
      | .error e => .error e
    else if name = "list_docker_containers" then
      match list_docker_containers o with
      | .ok result => .ok [⟨"text", json_dumps result 0⟩]
      | .error e => .error e
    else if name = "health_check" then
      .ok [⟨"text", json_dumps (health_check o) 0⟩]
    else
      .error ("Unknown tool: " ++ name)
  match attempt with
  | .ok r => r
  | .error e => [⟨"text", "Error: " ++ e⟩]

end Simple

/-- The upstream outcome of a delivered 200 response whose body is the
object `\x7b"data": data\x7d`: the ordinary success shape. -/
def successOutcome (data : Json) : UpstreamOutcome :=
  .response 200 "OK" (.ok (Json.obj [("data", data)]))




/-- The upstream outcome of a delivered response with the given status
whose body decodes to the JSON object with the given members. -/
def objResponse (status : Nat) (statusText : String) (fields : List (String × Json)) : UpstreamOutcome :=
  .response status statusText (.ok (Json.obj fields))

/-- Substring containment, as in the claims about error messages that
contain a given fragment. -/
def containsStr (s sub : String) : Prop :=
  ∃ pre post, s = pre ++ sub ++ post

theorem containsStr_wrap2 (a b j : String) : containsStr (a ++ (b ++ j)) j :=
  ⟨a ++ b, "", by rw [String.append_empty, String.append_assoc]⟩

theorem containsStr_wrap1 (b j : String) : containsStr (b ++ j) j :=
  ⟨b, "", by rw [String.append_empty]⟩

/-- The executor raises the GraphQL error on any delivered success-status
object body whose `errors` member is a non-empty array, joining the
rendered entries with `"; "`. -/
theorem graphqlCore_errors (status : Nat) (statusText : String)
    (fields : List (String × Json)) (es : List Json)
    (hstatus : 200 ≤ status ∧ status < 300)
    (herrors : lookupField fields "errors" = some (Json.arr es))
    (hne : es ≠ []) :
    graphqlRequestCore (objResponse status statusText fields) =
      .error (.graphqlError (String.intercalate "; " (es.map errMessage))) := by
  have h1 : ¬(status < 200 ∨ 300 ≤ status) := by omega
  have h2 : (Json.arr es).truthy = true := by
    cases es with
    | nil => exact absurd rfl hne
    | cons a t => rfl
  simp only [objResponse, graphqlRequestCore, h1, if_false, Json.lookup?, herrors, h2, if_true,
    joinErrorMessages]

/-- C1: a response whose `errors` array is non-empty, each entry
carrying a `message` string, makes the request executor raise the
upstream GraphQL error whose message contains the `"; "`-join of all
`message` fields, and the failure reaches all four operations of both
front ends regardless of the contents of `data`: the three data
operations fail with a message containing the join, and `health_check`
produces the unhealthy record (status 503 in the HTTP front end) whose
`error` field contains the join. -/
theorem C1_graphql_errors_fail_all_operations
    (status : Nat) (statusText now : String) (fields : List (String × Json))
    (es : List Json)
    (hstatus : 200 ≤ status ∧ status < 300)
    (herrors : lookupField fields "errors" = some (Json.arr es))
    (hne : es ≠ [])
    (hmsg : ∀ e ∈ es, ∃ s, e.lookup? "message" = some (Json.str s)) :
    (∀ e s, Json.lookup? e "message" = some (Json.str s) → errMessage e = s) ∧
    Http.make_graphql_request (objResponse status statusText fields) =
      .error (.graphqlError (String.intercalate "; " (es.map errMessage))) ∧
    Simple.make_graphql_request (objResponse status statusText fields) =
      .error (.graphqlError (String.intercalate "; " (es.map errMessage))) ∧
    (∃ d, Http.get_system_info (objResponse status statusText fields) = .error ⟨500, d⟩ ∧
      containsStr d (String.intercalate "; " (es.map errMessage))) ∧
    (∃ d, Http.get_array_status (objResponse status statusText fields) = .error ⟨500, d⟩ ∧
      containsStr d (String.intercalate "; " (es.map errMessage))) ∧
    (∃ d, Http.list_docker_containers (objResponse status statusText fields) = .error ⟨500, d⟩ ∧
      containsStr d (String.intercalate "; " (es.map errMessage))) ∧
    ((Http.health_check now (objResponse status statusText fields)).status_code = 503 ∧
      ∃ m, (Http.health_check now (objResponse status statusText fields)).content.lookup? "error" =
          some (Json.str m) ∧
        containsStr m (String.intercalate "; " (es.map errMessage))) ∧
    (∃ m, Simple.get_system_info (objResponse status statusText fields) = .error m ∧
      containsStr m (String.intercalate "; " (es.map errMessage))) ∧
    (∃ m, Simple.get_array_status (objResponse status statusText fields) = .error m ∧
      containsStr m (String.intercalate "; " (es.map errMessage))) ∧
    (∃ m, Simple.list_docker_containers (objResponse status statusText fields) = .error m ∧
      containsStr m (String.intercalate "; " (es.map errMessage))) ∧
    ((Simple.health_check (objResponse status statusText fields)).lookup? "status" =
        some (Json.str "unhealthy") ∧
      ∃ m, (Simple.health_check (objResponse status statusText fields)).lookup? "error" =
          some (Json.str m) ∧
        containsStr m (String.intercalate "; " (es.map errMessage))) := by
  have hexec := graphqlCore_errors status statusText fields es hstatus herrors hne
  have hreq : Http.make_graphql_request (objResponse status statusText fields) =
      .error (.graphqlError (String.intercalate "; " (es.map errMessage))) := hexec
  have hreqS : Simple.make_graphql_request (objResponse status statusText fields) =
      .error (.graphqlError (String.intercalate "; " (es.map errMessage))) := hexec
  have hsys : Http.get_system_info (objResponse status statusText fields) =
      .error ⟨500, "Failed to retrieve system information: " ++
        ("GraphQL API error: " ++ String.intercalate "; " (es.map errMessage))⟩ := by
    unfold Http.get_system_info; rw [hreq]; rfl
  have harr : Http.get_array_status (objResponse status statusText fields) =
      .error ⟨500, "Failed to retrieve array status: " ++
        ("GraphQL API error: " ++ String.intercalate "; " (es.map errMessage))⟩ := by
    unfold Http.get_array_status; rw [hreq]; rfl
  have hdoc : Http.list_docker_containers (objResponse status statusText fields) =
      .error ⟨500, "Failed to list Docker containers: " ++
        ("GraphQL API error: " ++ String.intercalate "; " (es.map errMessage))⟩ := by
    unfold Http.list_docker_containers; rw [hreq]; rfl
  have hhc : Http.health_check now (objResponse status statusText fields) =
      ⟨503, Json.obj [("status", Json.str "unhealthy"), ("timestamp", Json.str now),
        ("error", Json.str ("GraphQL API error: " ++ String.intercalate "; " (es.map errMessage)))]⟩ := by
    unfold Http.health_check; rw [hreq]; rfl
  have hsysS : Simple.get_system_info (objResponse status statusText fields) =
      .error ("Failed to retrieve system information: " ++
        ("GraphQL API error: " ++ String.intercalate "; " (es.map errMessage))) := by
    unfold Simple.get_system_info; rw [hreqS]; rfl
  have harrS : Simple.get_array_status (objResponse status statusText fields) =
      .error ("Failed to retrieve array status: " ++
        ("GraphQL API error: " ++ String.intercalate "; " (es.map errMessage))) := by
    unfold Simple.get_array_status; rw [hreqS]; rfl
  have hdocS : Simple.list_docker_containers (objResponse status statusText fields) =
      .error ("Failed to list Docker containers: " ++
        ("GraphQL API error: " ++ String.intercalate "; " (es.map errMessage))) := by
    unfold Simple.list_docker_containers; rw [hreqS]; rfl
  have hhcS : Simple.health_check (objResponse status statusText fields) =
      Json.obj [("status", Json.str "unhealthy"),
        ("error", Json.str ("GraphQL API error: " ++ String.intercalate "; " (es.map errMessage)))] := by
    unfold Simple.health_check; rw [hreqS]; rfl
  refine ⟨fun e s h => by unfold errMessage; rw [h], hreq, hreqS,
    ⟨_, hsys, containsStr_wrap2 _ _ _⟩,
    ⟨_, harr, containsStr_wrap2 _ _ _⟩,
    ⟨_, hdoc, containsStr_wrap2 _ _ _⟩,
    ⟨by rw [hhc], _, by rw [hhc]; rfl, containsStr_wrap1 _ _⟩,
    ⟨_, hsysS, containsStr_wrap2 _ _ _⟩,
    ⟨_, harrS, containsStr_wrap2 _ _ _⟩,
    ⟨_, hdocS, containsStr_wrap2 _ _ _⟩,
    by rw [hhcS]; rfl, _, by rw [hhcS]; rfl, containsStr_wrap1 _ _⟩

/-- Witness for C1: errors `[ {message:"x"}, {message:"y"} ]` with a 200
status and a populated `data` field make the executor fail with the
GraphQL error joining `"x; y"`. -/
theorem C1_graphql_errors_fail_all_operations_witness :
    Http.make_graphql_request (objResponse 200 "OK"
      [("errors", Json.arr [Json.obj [("message", Json.str "x")], Json.obj [("message", Json.str "y")]]),
       ("data", Json.obj [("info", Json.obj [("time", Json.str "t")])])]) =
      .error (.graphqlError "x; y") := by
  have h := C1_graphql_errors_fail_all_operations 200 "OK" "T"
    [("errors", Json.arr [Json.obj [("message", Json.str "x")], Json.obj [("message", Json.str "y")]]),
     ("data", Json.obj [("info", Json.obj [("time", Json.str "t")])])]
    [Json.obj [("message", Json.str "x")], Json.obj [("message", Json.str "y")]]
    (by omega) rfl (by simp)
    (by intro e he
        simp only [List.mem_cons, List.not_mem_nil, or_false] at he
        rcases he with rfl | rfl
        · exact ⟨"x", rfl⟩
        · exact ⟨"y", rfl⟩)
  exact h.2.1

/-- C7: a delivered response with a success status and no non-empty
`errors` array is a success: the executor returns the `data` member,
and the empty object when `data` is absent; in particular an `errors`
key holding an empty array is treated as success. -/
theorem C7_success_returns_data
    (status : Nat) (statusText : String) (fields : List (String × Json))
    (hstatus : 200 ≤ status ∧ status < 300)
    (herr : lookupField fields "errors" = none ∨
      ∃ e, lookupField fields "errors" = some e ∧ e.truthy = false) :
    Http.make_graphql_request (objResponse status statusText fields) =
      .ok ((lookupField fields "data").getD (Json.obj [])) ∧
    Simple.make_graphql_request (objResponse status statusText fields) =
      .ok ((lookupField fields "data").getD (Json.obj [])) ∧
    (lookupField fields "data" = none →
      Http.make_graphql_request (objResponse status statusText fields) = .ok (Json.obj [])) := by
  have h1 : ¬(status < 200 ∨ 300 ≤ status) := by omega
  have core : graphqlRequestCore (objResponse status statusText fields) =
      .ok ((lookupField fields "data").getD (Json.obj [])) := by
    rcases herr with h | ⟨e, he, ht⟩
    · simp only [objResponse, graphqlRequestCore, h1, if_false, Json.lookup?, h, Json.getd]
    · simp only [objResponse, graphqlRequestCore, h1, if_false, Json.lookup?, he, ht,
        Bool.false_eq_true, Json.getd]
  exact ⟨core, core, fun hd => by
    have := core; rw [hd] at this; exact this⟩

/-- Witness for C7: a 200 response with `errors: []` present and
`data: \x7b"info": 1\x7d` succeeds with that data object. -/
theorem C7_success_returns_data_witness :
    Http.make_graphql_request (objResponse 200 "OK"
      [("errors", Json.arr []), ("data", Json.obj [("info", Json.num 1)])]) =
      .ok (Json.obj [("info", Json.num 1)]) := by
  have h := C7_success_returns_data 200 "OK"
    [("errors", Json.arr []), ("data", Json.obj [("info", Json.num 1)])]
    (by omega) (Or.inr ⟨Json.arr [], rfl, rfl⟩)
  exact h.1

/-- C2: on an otherwise-successful upstream response, an absent or empty
`info` field makes `get_system_info` fail through the not-found path —
the 404 `HTTPException` with detail `"No system info returned from
Unraid API"`, rewrapped at the handler boundary into the final error in
both front ends — whereas an absent `docker` field makes
`list_docker_containers` return the zero-valued result (zero summary
and empty list in the HTTP front end, the empty list in the
tool-protocol front end), not a failure. -/
theorem C2_missing_info_fails_missing_docker_zero :
    (∀ dataFields : List (String × Json),
      ((Json.obj dataFields).getd "info" (Json.obj [])).truthy = false →
      Http.get_system_info (successOutcome (Json.obj dataFields)) =
        .error ⟨500, "Failed to retrieve system information: 404: No system info returned from Unraid API"⟩ ∧
      Simple.get_system_info (successOutcome (Json.obj dataFields)) =
        .error "Failed to retrieve system information: No system info returned from Unraid API") ∧
    (∀ dataFields : List (String × Json),
      lookupField dataFields "docker" = none →
      Http.list_docker_containers (successOutcome (Json.obj dataFields)) =
        .ok (Json.obj [("summary", Json.obj
          [("total", Json.num 0), ("running", Json.num 0), ("stopped", Json.num 0)]),
          ("containers", Json.arr [])]) ∧
      Simple.list_docker_containers (successOutcome (Json.obj dataFields)) = .ok (Json.arr [])) := by
  constructor
  · intro dataFields hinfo
    have hreq : Http.make_graphql_request (successOutcome (Json.obj dataFields)) =
        .ok (Json.obj dataFields) := rfl
    have hreqS : Simple.make_graphql_request (successOutcome (Json.obj dataFields)) =
        .ok (Json.obj dataFields) := rfl
    constructor
    · unfold Http.get_system_info
      rw [hreq]
      simp only [hinfo, Bool.not_false, if_true]
      rfl
    · unfold Simple.get_system_info
      rw [hreqS]
      simp only [hinfo, Bool.not_false, if_true]
      rfl
  · intro dataFields hdocker
    have hreq : Http.make_graphql_request (successOutcome (Json.obj dataFields)) =
        .ok (Json.obj dataFields) := rfl
    have hreqS : Simple.make_graphql_request (successOutcome (Json.obj dataFields)) =
        .ok (Json.obj dataFields) := rfl
    have hd : (Json.obj dataFields).getd "docker" Json.null = Json.null := by
      show (lookupField dataFields "docker").getD Json.null = Json.null
      rw [hdocker]
      rfl
    constructor
    · unfold Http.list_docker_containers
      rw [hreq]
      simp only [hd, Json.truthy, Bool.false_eq_true, if_false]
    · unfold Simple.list_docker_containers
      rw [hreqS]
      simp only [hd, Json.truthy, Bool.false_eq_true, if_false]

/-- Witness for C2: the empty data object has no `info` and no `docker`
member, so `get_system_info` fails with the wrapped not-found error and
`list_docker_containers` returns the zero-valued summary. -/
theorem C2_missing_info_fails_missing_docker_zero_witness :
    Http.get_system_info (successOutcome (Json.obj [])) =
      .error ⟨500, "Failed to retrieve system information: 404: No system info returned from Unraid API"⟩ ∧
    Http.list_docker_containers (successOutcome (Json.obj [])) =
      .ok (Json.obj [("summary", Json.obj
        [("total", Json.num 0), ("running", Json.num 0), ("stopped", Json.num 0)]),
        ("containers", Json.arr [])]) :=
  ⟨(C2_missing_info_fails_missing_docker_zero.1 [] rfl).1,
   (C2_missing_info_fails_missing_docker_zero.2 [] rfl).1⟩

/-- C3: the HTTP front end capacity formatter maps a missing figure to
`"N/A"`, a figure at or above 2^30 kilobytes to its quotient by 2^30 to
two decimals plus `" TB"`, then the analogous `" GB"` and `" MB"` tiers,
and anything below 1024 to the integer value plus `" KB"`; the
`\x7btotal: 2147483648, used: 1073741824, free: 1073741824\x7d` capacity
formats to `"2.00 TB"`/`"1.00 TB"`/`"1.00 TB"`, each of total, used and
free formatted independently inside the array-status summary. -/
theorem C3_format_kb_tiers :
    format_kb none = "N/A" ∧
    format_kb (some 500) = "500 KB" ∧
    (∀ k : Int, 1073741824 ≤ k →
      format_kb (some k) = formatFloat2 k.toNat 1073741824 ++ " TB") ∧
    (∀ k : Int, 1048576 ≤ k → k < 1073741824 →
      format_kb (some k) = formatFloat2 k.toNat 1048576 ++ " GB") ∧
    (∀ k : Int, 1024 ≤ k → k < 1048576 →
      format_kb (some k) = formatFloat2 k.toNat 1024 ++ " MB") ∧
    (∀ k : Int, k < 1024 → format_kb (some k) = toString k ++ " KB") ∧
    Http.get_array_status (successOutcome (Json.obj [("array", Json.obj
      [("state", Json.str "STARTED"),
       ("capacity", Json.obj [("kilobytes", Json.obj
         [("free", Json.num 1073741824), ("used", Json.num 1073741824),
          ("total", Json.num 2147483648)])]),
       ("disks", Json.arr []), ("parities", Json.arr [])])])) =
      .ok (Json.obj [("summary", Json.obj
        [("state", Json.str "STARTED"), ("num_data_disks", Json.num 0),
         ("num_parity_disks", Json.num 0),
         ("capacity", Json.obj [("total", Json.str "2.00 TB"), ("used", Json.str "1.00 TB"),
           ("free", Json.str "1.00 TB")])]),
        ("details", Json.obj
          [("state", Json.str "STARTED"),
           ("capacity", Json.obj [("kilobytes", Json.obj
             [("free", Json.num 1073741824), ("used", Json.num 1073741824),
              ("total", Json.num 2147483648)])]),
           ("disks", Json.arr []), ("parities", Json.arr [])])]) := by
  refine ⟨rfl, rfl, ?_, ?_, ?_, ?_, ?_⟩
  · intro k hk
    simp only [format_kb]
    rw [if_pos (by omega : (1024 * 1024 * 1024 : Int) ≤ k)]
  · intro k hk1 hk2
    simp only [format_kb]
    rw [if_neg (by omega : ¬(1024 * 1024 * 1024 : Int) ≤ k),
      if_pos (by omega : (1024 * 1024 : Int) ≤ k)]
  · intro k hk1 hk2
    simp only [format_kb]
    rw [if_neg (by omega : ¬(1024 * 1024 * 1024 : Int) ≤ k),
      if_neg (by omega : ¬(1024 * 1024 : Int) ≤ k),
      if_pos (by omega : (1024 : Int) ≤ k)]
  · intro k hk
    simp only [format_kb]
    rw [if_neg (by omega : ¬(1024 * 1024 * 1024 : Int) ≤ k),
      if_neg (by omega : ¬(1024 * 1024 : Int) ≤ k),
      if_neg (by omega : ¬(1024 : Int) ≤ k)]
  · rfl

/-- Witness for C3 at the tier bounds named by the claim: 2147483648 KB
formats through the TB tier to `"2.00 TB"`. -/
theorem C3_format_kb_tiers_witness :
    format_kb (some 2147483648) = "2.00 TB" :=
  (C3_format_kb_tiers.2.2.1 2147483648 (by norm_num)).trans rfl

/-- C4: for every upstream container list, the HTTP docker summary has
`total` the number of containers, `running` the count of state
`"running"` and `stopped` the count of state `"exited"`; a `"paused"`
container is counted in neither, and the states
`["running","running","exited","paused"]` give `\x7btotal:4, running:2,
stopped:1\x7d`. -/
theorem C4_docker_summary_counts (cs : List Json) :
    Http.list_docker_containers (successOutcome (Json.obj
      [("docker", Json.obj [("containers", Json.arr cs)])])) =
      .ok (Json.obj [
        ("summary", Json.obj [
          ("total", Json.num cs.length),
          ("running", Json.num (cs.countP (fun c => Http.stateIs c "running"))),
          ("stopped", Json.num (cs.countP (fun c => Http.stateIs c "exited")))]),
        ("containers", Json.arr cs)]) ∧
    Http.stateIs (Json.obj [("state", Json.str "paused")]) "running" = false ∧
    Http.stateIs (Json.obj [("state", Json.str "paused")]) "exited" = false ∧
    Http.list_docker_containers (successOutcome (Json.obj
      [("docker", Json.obj [("containers", Json.arr
        [Json.obj [("state", Json.str "running")], Json.obj [("state", Json.str "running")],
         Json.obj [("state", Json.str "exited")], Json.obj [("state", Json.str "paused")]])])])) =
      .ok (Json.obj [
        ("summary", Json.obj [("total", Json.num 4), ("running", Json.num 2), ("stopped", Json.num 1)]),
        ("containers", Json.arr
          [Json.obj [("state", Json.str "running")], Json.obj [("state", Json.str "running")],
           Json.obj [("state", Json.str "exited")], Json.obj [("state", Json.str "paused")]])]) :=
  ⟨rfl, rfl, rfl, rfl⟩

/-- Two disjoint boolean predicates never count more elements than the
list holds between them. -/
theorem countP_disjoint_le_length {α : Type} (l : List α) (p q : α → Bool)
    (h : ∀ a, p a = true → q a = false) :
    l.countP p + l.countP q ≤ l.length := by
  induction l with
  | nil => simp
  | cons a l ih =>
    rw [List.countP_cons, List.countP_cons, List.length_cons]
    by_cases hp : p a = true
    · have hq := h a hp
      rw [hp, hq]
      simp only [if_true, Bool.false_eq_true, if_false]
      omega
    · rw [Bool.not_eq_true] at hp
      rw [hp]
      simp only [Bool.false_eq_true, if_false]
      by_cases hq : q a = true
      · rw [hq]; simp only [if_true]; omega
      · rw [Bool.not_eq_true] at hq
        rw [hq]; simp only [Bool.false_eq_true, if_false]; omega

/-- The `"running"` and `"exited"` state tests of the docker summary are
mutually exclusive. -/
theorem stateIs_running_not_exited (c : Json) :
    Http.stateIs c "running" = true → Http.stateIs c "exited" = false := by
  unfold Http.stateIs
  cases h : c.lookup? "state" with
  | none => simp
  | some v => cases v <;> simp_all

/-- C10: for every container list the HTTP docker summary satisfies
`0 ≤ running`, `0 ≤ stopped` and `running + stopped ≤ total`, since the
`"running"` and `"exited"` state values are mutually exclusive and both
counts are drawn from the list whose length is `total`. -/
theorem C10_docker_summary_invariant (cs : List Json) :
    ∃ total running stopped : Nat,
      Http.list_docker_containers (successOutcome (Json.obj
        [("docker", Json.obj [("containers", Json.arr cs)])])) =
        .ok (Json.obj [
          ("summary", Json.obj [("total", Json.num total), ("running", Json.num running),
            ("stopped", Json.num stopped)]),
          ("containers", Json.arr cs)]) ∧
      0 ≤ running ∧ 0 ≤ stopped ∧ running + stopped ≤ total := by
  refine ⟨cs.length, cs.countP (fun c => Http.stateIs c "running"),
    cs.countP (fun c => Http.stateIs c "exited"), rfl, Nat.zero_le _, Nat.zero_le _, ?_⟩
  exact countP_disjoint_le_length cs _ _ (fun c hc => stateIs_running_not_exited c hc)

/-- C5: the tool dispatcher always returns a single text content and
never propagates an exception: a known tool name yields the result of
that operation serialized by `json.dumps(..., indent=2)`, while an
unknown name or an operation failure yields the textual payload
`"Error: <message>"`. -/
theorem C5_call_tool_total (name : String) (arguments : Json) (o : UpstreamOutcome) :
    (∃ txt, Simple.call_tool name arguments o = [⟨"text", txt⟩]) ∧
    (name ≠ "get_system_info" → name ≠ "get_array_status" →
      name ≠ "list_docker_containers" → name ≠ "health_check" →
      Simple.call_tool name arguments o = [⟨"text", "Error: Unknown tool: " ++ name⟩]) ∧
    (∀ r, Simple.get_system_info o = .ok r →
      Simple.call_tool "get_system_info" arguments o = [⟨"text", json_dumps r 0⟩]) ∧
    (∀ m, Simple.get_system_info o = .error m →
      Simple.call_tool "get_system_info" arguments o = [⟨"text", "Error: " ++ m⟩]) ∧
    (∀ r, Simple.get_array_status o = .ok r →
      Simple.call_tool "get_array_status" arguments o = [⟨"text", json_dumps r 0⟩]) ∧
    (∀ m, Simple.get_array_status o = .error m →
      Simple.call_tool "get_array_status" arguments o = [⟨"text", "Error: " ++ m⟩]) ∧
    (∀ r, Simple.list_docker_containers o = .ok r →
      Simple.call_tool "list_docker_containers" arguments o = [⟨"text", json_dumps r 0⟩]) ∧
    (∀ m, Simple.list_docker_containers o = .error m →
      Simple.call_tool "list_docker_containers" arguments o = [⟨"text", "Error: " ++ m⟩]) ∧
    Simple.call_tool "health_check" arguments o = [⟨"text", json_dumps (Simple.health_check o) 0⟩] := by
  refine ⟨?_, ?_, ?_, ?_, ?_, ?_, ?_, ?_, ?_⟩
  · by_cases h1 : name = "get_system_info"
    · subst h1
      cases hres : Simple.get_system_info o with
      | ok r => exact ⟨json_dumps r 0, by unfold Simple.call_tool; rw [if_pos rfl, hres]⟩
      | error m => exact ⟨"Error: " ++ m, by unfold Simple.call_tool; rw [if_pos rfl, hres]⟩
    · by_cases h2 : name = "get_array_status"
      · subst h2
        cases hres : Simple.get_array_status o with
        | ok r => exact ⟨json_dumps r 0, by
            unfold Simple.call_tool; rw [if_neg h1, if_pos rfl, hres]⟩
        | error m => exact ⟨"Error: " ++ m, by
            unfold Simple.call_tool; rw [if_neg h1, if_pos rfl, hres]⟩
      · by_cases h3 : name = "list_docker_containers"
        · subst h3
          cases hres : Simple.list_docker_containers o with
          | ok r => exact ⟨json_dumps r 0, by
              unfold Simple.call_tool; rw [if_neg h1, if_neg h2, if_pos rfl, hres]⟩
          | error m => exact ⟨"Error: " ++ m, by
              unfold Simple.call_tool; rw [if_neg h1, if_neg h2, if_pos rfl, hres]⟩
        · by_cases h4 : name = "health_check"
          · subst h4
            exact ⟨json_dumps (Simple.health_check o) 0, by
              unfold Simple.call_tool; rw [if_neg h1, if_neg h2, if_neg h3, if_pos rfl]⟩
          · exact ⟨"Error: " ++ ("Unknown tool: " ++ name), by
              unfold Simple.call_tool; rw [if_neg h1, if_neg h2, if_neg h3, if_neg h4]⟩
  · intro h1 h2 h3 h4
    unfold Simple.call_tool
    rw [if_neg h1, if_neg h2, if_neg h3, if_neg h4]
    show [(⟨"text", "Error: " ++ ("Unknown tool: " ++ name)⟩ : TextContent)] =
      [⟨"text", "Error: Unknown tool: " ++ name⟩]
    rw [← String.append_assoc]
    rfl
  · intro r hr
    unfold Simple.call_tool
    rw [if_pos rfl, hr]
  · intro m hm
    unfold Simple.call_tool
    rw [if_pos rfl, hm]
  · intro r hr
    unfold Simple.call_tool
    rw [if_neg (by decide : ("get_array_status" : String) ≠ "get_system_info"), if_pos rfl, hr]
  · intro m hm
    unfold Simple.call_tool
    rw [if_neg (by decide : ("get_array_status" : String) ≠ "get_system_info"), if_pos rfl, hm]
  · intro r hr
    unfold Simple.call_tool
    rw [if_neg (by decide : ("list_docker_containers" : String) ≠ "get_system_info"),
      if_neg (by decide : ("list_docker_containers" : String) ≠ "get_array_status"), if_pos rfl, hr]
  · intro m hm
    unfold Simple.call_tool
    rw [if_neg (by decide : ("list_docker_containers" : String) ≠ "get_system_info"),
      if_neg (by decide : ("list_docker_containers" : String) ≠ "get_array_status"), if_pos rfl, hm]
  · unfold Simple.call_tool
    rw [if_neg (by decide : ("health_check" : String) ≠ "get_system_info"),
      if_neg (by decide : ("health_check" : String) ≠ "get_array_status"),
      if_neg (by decide : ("health_check" : String) ≠ "list_docker_containers"), if_pos rfl]

/-- Witness for C5: the unknown tool name `"nonexistent"` returns the
textual error payload rather than a fault. -/
theorem C5_call_tool_total_witness :
    Simple.call_tool "nonexistent" (Json.obj []) (successOutcome (Json.obj [])) =
      [⟨"text", "Error: Unknown tool: nonexistent"⟩] :=
  (C5_call_tool_total "nonexistent" (Json.obj []) (successOutcome (Json.obj []))).2.1
    (by decide) (by decide) (by decide) (by decide)

/-- C6: every failure of the request executor makes `health_check`
return the unhealthy record carrying the stringified error instead of
propagating the exception — with response status 503 in the HTTP front
end — while a success returns the healthy record with the fixed server
identifier and the echoed `machineId`/`time` data under
`unraid_system`. -/
theorem C6_health_check_no_propagation (now : String) (o : UpstreamOutcome) :
    (∀ e : PyError, Http.make_graphql_request o = .error e →
      Http.health_check now o = ⟨503, Json.obj [("status", Json.str "unhealthy"),
        ("timestamp", Json.str now), ("error", Json.str e.str)]⟩ ∧
      Simple.health_check o = Json.obj [("status", Json.str "unhealthy"),
        ("error", Json.str e.str)]) ∧
    (∀ body : Json, Http.make_graphql_request o = .ok body →
      Http.health_check now o = ⟨200, Json.obj [("status", Json.str "healthy"),
        ("timestamp", Json.str now), ("server", Json.str "Unraid MCP Server HTTP"),
        ("version", Json.str "1.0.0"), ("api_connection", Json.str "ok"),
        ("unraid_system", Json.obj [
          ("machine_id", (body.getd "info" (Json.obj [])).getd "machineId" Json.null),
          ("time", (body.getd "info" (Json.obj [])).getd "time" Json.null)])]⟩ ∧
      Simple.health_check o = Json.obj [("status", Json.str "healthy"),
        ("server", Json.str "Unraid MCP Server"), ("api_connection", Json.str "ok"),
        ("unraid_system", body.getd "info" (Json.obj []))]) := by
  constructor
  · intro e he
    have heS : Simple.make_graphql_request o = .error e := he
    exact ⟨by unfold Http.health_check; rw [he], by unfold Simple.health_check; rw [heS]⟩
  · intro body hb
    have hbS : Simple.make_graphql_request o = .ok body := hb
    exact ⟨by unfold Http.health_check; rw [hb], by unfold Simple.health_check; rw [hbS]⟩

/-- Witness for C6: a forced transport failure yields the 503 unhealthy
payload carrying the stringified error. -/
theorem C6_health_check_no_propagation_witness :
    Http.health_check "T" (.transportError "connection timed out") =
      ⟨503, Json.obj [("status", Json.str "unhealthy"), ("timestamp", Json.str "T"),
        ("error", Json.str "connection timed out")]⟩ :=
  ((C6_health_check_no_propagation "T" (.transportError "connection timed out")).1
    (.transport "connection timed out") rfl).1

/-- C8: the system-info summary renders `os` as
"{distro} {release} ({platform})" with a missing field as the empty
string (not omitted), copies `hostname` and `uptime` verbatim, and
renders `cpu` as "{manufacturer} {brand} ({cores} cores, {threads}
threads)"; the Intel example renders exactly
"Intel i7 (8 cores, 16 threads)".  The summary is the same pure
function of the raw fields in both front ends (for a response without
`versions`). -/
theorem C8_system_summary_formatting
    (pl d r h u m b : String) (c t : Int) :
    Http.get_system_info (successOutcome (Json.obj [("info", Json.obj
      [("os", Json.obj [("platform", Json.str pl), ("distro", Json.str d),
        ("release", Json.str r), ("hostname", Json.str h), ("uptime", Json.str u)]),
       ("cpu", Json.obj [("manufacturer", Json.str m), ("brand", Json.str b),
        ("cores", Json.num c), ("threads", Json.num t)])])])) =
      .ok (Json.obj [("summary", Json.obj
        [("os", Json.str (d ++ " " ++ r ++ " (" ++ pl ++ ")")),
         ("hostname", Json.str h), ("uptime", Json.str u),
         ("cpu", Json.str (m ++ " " ++ b ++ " (" ++ toString c ++ " cores, " ++
           toString t ++ " threads)"))]),
        ("details", Json.obj
          [("os", Json.obj [("platform", Json.str pl), ("distro", Json.str d),
            ("release", Json.str r), ("hostname", Json.str h), ("uptime", Json.str u)]),
           ("cpu", Json.obj [("manufacturer", Json.str m), ("brand", Json.str b),
            ("cores", Json.num c), ("threads", Json.num t)])])]) ∧
    Simple.get_system_info (successOutcome (Json.obj [("info", Json.obj
      [("os", Json.obj [("platform", Json.str pl), ("distro", Json.str d),
        ("release", Json.str r), ("hostname", Json.str h), ("uptime", Json.str u)]),
       ("cpu", Json.obj [("manufacturer", Json.str m), ("brand", Json.str b),
        ("cores", Json.num c), ("threads", Json.num t)])])])) =
      .ok (Json.obj [("summary", Json.obj
        [("os", Json.str (d ++ " " ++ r ++ " (" ++ pl ++ ")")),
         ("hostname", Json.str h), ("uptime", Json.str u),
         ("cpu", Json.str (m ++ " " ++ b ++ " (" ++ toString c ++ " cores, " ++
           toString t ++ " threads)"))]),
        ("details", Json.obj
          [("os", Json.obj [("platform", Json.str pl), ("distro", Json.str d),
            ("release", Json.str r), ("hostname", Json.str h), ("uptime", Json.str u)]),
           ("cpu", Json.obj [("manufacturer", Json.str m), ("brand", Json.str b),
            ("cores", Json.num c), ("threads", Json.num t)])])]) ∧
    Http.get_system_info (successOutcome (Json.obj [("info", Json.obj
      [("os", Json.obj [("platform", Json.str pl), ("release", Json.str r)])])])) =
      .ok (Json.obj [("summary", Json.obj
        [("os", Json.str (" " ++ r ++ " (" ++ pl ++ ")")),
         ("hostname", Json.null), ("uptime", Json.null)]),
        ("details", Json.obj
          [("os", Json.obj [("platform", Json.str pl), ("release", Json.str r)])])]) ∧
    Http.system_summary (Json.obj [("cpu", Json.obj
      [("manufacturer", Json.str "Intel"), ("brand", Json.str "i7"),
       ("cores", Json.num 8), ("threads", Json.num 16)])]) =
      [("cpu", Json.str "Intel i7 (8 cores, 16 threads)")] :=
  ⟨rfl, rfl, rfl, rfl⟩

/-- C9: on the same non-empty upstream array object, the two front ends
agree on the summary fields `state` (copied verbatim), `num_data_disks`
(count of `disks`) and `num_parity_disks` (count of `parities`); the
HTTP summary additionally carries the formatted `capacity` entry when
the capacity kilobyte figures are present, while the tool-protocol
summary never carries a `capacity` entry. -/
theorem C9_array_status_refinement (arrFields : List (String × Json))
    (hne : arrFields ≠ []) :
    ∃ hs ss : List (String × Json),
      Http.get_array_status (successOutcome (Json.obj [("array", Json.obj arrFields)])) =
        .ok (Json.obj [("summary", Json.obj hs), ("details", Json.obj arrFields)]) ∧
      Simple.get_array_status (successOutcome (Json.obj [("array", Json.obj arrFields)])) =
        .ok (Json.obj [("summary", Json.obj ss), ("details", Json.obj arrFields)]) ∧
      lookupField hs "state" = lookupField ss "state" ∧
      lookupField hs "num_data_disks" = lookupField ss "num_data_disks" ∧
      lookupField hs "num_parity_disks" = lookupField ss "num_parity_disks" ∧
      lookupField ss "state" = some ((Json.obj arrFields).getd "state" Json.null) ∧
      lookupField ss "num_data_disks" =
        some (Json.num ((Json.obj arrFields).getd "disks" (Json.arr [])).pyLen) ∧
      lookupField ss "num_parity_disks" =
        some (Json.num ((Json.obj arrFields).getd "parities" (Json.arr [])).pyLen) ∧
      lookupField ss "capacity" = none ∧
      (((Json.obj arrFields).getd "capacity" Json.null).truthy = true →
        (((Json.obj arrFields).getd "capacity" Json.null).getd "kilobytes" Json.null).truthy = true →
        lookupField hs "capacity" = some (Json.obj [
          ("total", Json.str (format_kb (kbFigure
            (((Json.obj arrFields).getd "capacity" Json.null).getd "kilobytes" Json.null) "total"))),
          ("used", Json.str (format_kb (kbFigure
            (((Json.obj arrFields).getd "capacity" Json.null).getd "kilobytes" Json.null) "used"))),
          ("free", Json.str (format_kb (kbFigure
            (((Json.obj arrFields).getd "capacity" Json.null).getd "kilobytes" Json.null) "free")))])) := by
  have ht : (Json.obj arrFields).truthy = true := by
    cases arrFields with
    | nil => exact absurd rfl hne
    | cons a t => rfl
  have hreq : Http.make_graphql_request (successOutcome (Json.obj [("array", Json.obj arrFields)])) =
      .ok (Json.obj [("array", Json.obj arrFields)]) := rfl
  have hreqS : Simple.make_graphql_request (successOutcome (Json.obj [("array", Json.obj arrFields)])) =
      .ok (Json.obj [("array", Json.obj arrFields)]) := rfl
  have hgd : (Json.obj [("array", Json.obj arrFields)]).getd "array" (Json.obj []) =
      Json.obj arrFields := rfl
  refine ⟨Http.array_summary (Json.obj arrFields), Simple.array_summary (Json.obj arrFields),
    ?_, ?_, rfl, rfl, rfl, rfl, rfl, rfl, rfl, ?_⟩
  · unfold Http.get_array_status
    rw [hreq]
    simp only [hgd, ht, Bool.not_true, Bool.false_eq_true, if_false]
  · unfold Simple.get_array_status
    rw [hreqS]
    simp only [hgd, ht, Bool.not_true, Bool.false_eq_true, if_false]
  · intro h1 h2
    unfold Http.array_summary
    rw [h1, h2]
    rfl

/-- Witness for C9 at a concrete array object carrying a capacity block:
the HTTP summary formats the capacity while the tool-protocol summary
has none. -/
theorem C9_array_status_refinement_witness :
    ∃ hs ss : List (String × Json),
      Http.get_array_status (successOutcome (Json.obj [("array", Json.obj
        [("state", Json.str "STARTED"),
         ("capacity", Json.obj [("kilobytes", Json.obj [("total", Json.num 1024)])])])])) =
        .ok (Json.obj [("summary", Json.obj hs), ("details", Json.obj
          [("state", Json.str "STARTED"),
           ("capacity", Json.obj [("kilobytes", Json.obj [("total", Json.num 1024)])])])]) ∧
      lookupField ss "capacity" = none ∧
      lookupField hs "capacity" = some (Json.obj [("total", Json.str "1.00 MB"),
        ("used", Json.str "N/A"), ("free", Json.str "N/A")]) := by
  obtain ⟨hs, ss, h1, h2, h3, h4, h5, h6, h7, h8, h9, h10⟩ :=
    C9_array_status_refinement
      [("state", Json.str "STARTED"),
       ("capacity", Json.obj [("kilobytes", Json.obj [("total", Json.num 1024)])])]
      (List.cons_ne_nil _ _)
  refine ⟨hs, ss, h1, h9, ?_⟩
  rw [h10 rfl rfl]
  rfl
